import Mathlib

/-!
Verification development for the template-rendering subsystem of the
`astro-cloudflare` theme-builder repository: the render cache
(`src/lib/liquid/cache.ts`), the mock context generator
(`src/lib/liquid/mock-generator.ts`) and the render pipeline with its
Shopify-style filters (`src/lib/liquid/engine.ts`).

The TypeScript sources are shallowly embedded:
* JS objects used as string-keyed maps become insertion-ordered
  association lists (`List (String × α)`); JS property assignment keeps
  an existing key at its position and otherwise appends, which
  `jsMapSet` mirrors.
* JS 32-bit bitwise arithmetic is modelled on `Int` with an explicit
  `toInt32` wrap at every step where the source coerces to int32.
* Asynchronous functions with I/O become pure functions over an explicit
  environment (`RenderEnv`); the D1 database is a list of rows or a
  backend failure (`Except Unit _`), and database time (`datetime`
  strings in the source, whose lexicographic order agrees with time
  order) is a `Nat` of milliseconds.
* Code that mutates its arguments (the mock-block generator writes
  missing defaults into preset block settings in place) is embedded by
  explicit state passing: the function returns the updated value of the
  mutated input alongside its result.
* Strings are modelled over their code points; every string the claims
  touch is ASCII, where this agrees with the UTF-16 code units that
  `charCodeAt` iterates over.
-/

/-- A JSON-serializable JavaScript value, the type of section setting
values and setting-override values (`unknown` on the TS side). -/
inductive JsonValue where
  | null
  | bool (b : Bool)
  | num (n : Int)
  | str (s : String)
  | arr (elems : List JsonValue)
  | obj (fields : List (String × JsonValue))

/-- An insertion-ordered string-keyed map: the embedding of a JS object
used as a `Record<string, T>`. -/
abbrev JsRecord := List (String × JsonValue)

/-- Does the JS object have the key (the `key in obj` test)? -/
def jsMapHasKey {α : Type} (m : List (String × α)) (k : String) : Bool :=
  m.any (fun p => p.1 == k)

/-- JS property assignment `obj[k] = v`: an existing key keeps its
position and gets the new value, a new key is appended. -/
def jsMapSet {α : Type} (m : List (String × α)) (k : String) (v : α) :
    List (String × α) :=
  if jsMapHasKey m k then m.map (fun p => if p.1 == k then (k, v) else p)
  else m ++ [(k, v)]

/-- `Object.assign(target, source)`: assign every entry of `source`
onto `target`, in order. -/
def objectAssign {α : Type} (target source : List (String × α)) :
    List (String × α) :=
  source.foldl (fun t p => jsMapSet t p.1 p.2) target

/-- The escaping `JSON.stringify` applies to one character of a string
(ECMAScript QuoteJSONString, for BMP characters). -/
def jsonEscapeChar (c : Char) : String :=
  if c = '"' then "\\\""
  else if c = '\\' then "\\\\"
  else if c = Char.ofNat 8 then "\\b"
  else if c = Char.ofNat 9 then "\\t"
  else if c = Char.ofNat 10 then "\\n"
  else if c = Char.ofNat 12 then "\\f"
  else if c = Char.ofNat 13 then "\\r"
  else if c.toNat < 32 then
    "\\u00" ++ String.singleton (Nat.digitChar (c.toNat / 16))
            ++ String.singleton (Nat.digitChar (c.toNat % 16))
  else String.singleton c

/-- `JSON.stringify` of a string, quotes included. -/
def quoteJsonString (s : String) : String :=
  "\"" ++ String.join (s.toList.map jsonEscapeChar) ++ "\""

mutual

/-- `JSON.stringify` restricted to the embedded value domain (integral
numbers; no `undefined`, functions or cycles). -/
def jsonStringify : JsonValue → String
  | .null => "null"
  | .bool b => if b then "true" else "false"
  | .num n => toString n
  | .str s => quoteJsonString s
  | .arr elems => "[" ++ jsonStringifyElems elems ++ "]"
  | .obj fields => "\x7b" ++ jsonStringifyFields fields ++ "\x7d"

/-- Array elements of `JSON.stringify`, comma separated. -/
def jsonStringifyElems : List JsonValue → String
  | [] => ""
  | [v] => jsonStringify v
  | v :: rest => jsonStringify v ++ "," ++ jsonStringifyElems rest

/-- Object members of `JSON.stringify`, comma separated, in property
insertion order. -/
def jsonStringifyFields : List (String × JsonValue) → String
  | [] => ""
  | [f] => quoteJsonString f.1 ++ ":" ++ jsonStringify f.2
  | f :: rest =>
      quoteJsonString f.1 ++ ":" ++ jsonStringify f.2 ++ "," ++
        jsonStringifyFields rest

end

/-- ECMAScript ToInt32: wrap an exact integer into [-2^31, 2^31). -/
def toInt32 (x : Int) : Int := (x + 2 ^ 31) % 2 ^ 32 - 2 ^ 31

namespace Cache

/-! Embedding of `src/lib/liquid/cache.ts`. -/

/-- `CacheEntry` of `cache.ts`: `css` is nullable, `renderTimeMs` is the
row's `render_time_ms ?? 0`. -/
structure CacheEntry where
  html : String
  css : Option String
  renderTimeMs : Nat
deriving DecidableEq, Repr

/-- A row of the `rendered_previews` D1 table (migration
`003_rendered_previews.sql`); `created_at` and `expires_at` are ISO
datetime strings in the source, modelled as milliseconds. -/
structure RenderedPreviewRow where
  cache_key : String
  section_slug : String
  preset_slug : Option String
  html : String
  css : Option String
  render_time_ms : Option Nat
  created_at : Nat
  expires_at : Nat
deriving DecidableEq, Repr

/-- The D1 cache backend: its rows, or a backend failure (the `catch`
branches of every cache operation). -/
abbrev CacheDB := Except Unit (List RenderedPreviewRow)

/-- `generateCacheKey(sectionSlug, presetSlug?, settingsHash?)`:
collect the truthy parts (a JS string is falsy exactly when empty) and
join them with `:`. -/
def generateCacheKey (sectionSlug : String) (presetSlug : Option String)
    (settingsHash : Option String) : String :=
  let parts := [sectionSlug]
  let parts := match presetSlug with
    | some p => if p == "" then parts else parts ++ [p]
    | none => parts
  let parts := match settingsHash with
    | some h => if h == "" then parts else parts ++ [h]
    | none => parts
  String.intercalate ":" parts

/-- One step of the rolling hash in `hashSettings`:
`hash = ((hash << 5) - hash) + char; hash = hash & hash`. The shift
coerces to int32; the subtraction and addition are exact in doubles at
these magnitudes; `hash & hash` coerces the result to int32. -/
def hashStep (hash : Int) (c : Char) : Int :=
  toInt32 (toInt32 (hash * 32) - hash + c.toNat)

/-- The 32-bit rolling hash over a string's code units, starting at 0. -/
def jsStringHash (s : String) : Int :=
  s.toList.foldl hashStep 0

/-- `Math.abs(hash).toString(36)`: one base-36 digit (`0-9`, `a-z`). -/
def base36Digit (n : Nat) : Char :=
  if n < 10 then Char.ofNat (48 + n) else Char.ofNat (87 + n)

/-- Base-36 digits of `n`, most significant first; structural recursion
on a fuel bound so concrete values reduce in the kernel. -/
def natToBase36Go : Nat → Nat → String
  | 0, _ => ""
  | fuel + 1, n =>
      if n < 36 then String.singleton (base36Digit n)
      else natToBase36Go fuel (n / 36) ++ String.singleton (base36Digit (n % 36))

/-- `n.toString(36)` for a natural number (`n < 36^(n+1)` always, so the
fuel never runs out). -/
def natToBase36 (n : Nat) : String := natToBase36Go (n + 1) n

/-- `hashSettings(settings)`: hash of `JSON.stringify(settings)`,
absolute value rendered in base 36. -/
def hashSettings (settings : JsRecord) : String :=
  natToBase36 (jsStringHash (jsonStringify (.obj settings))).natAbs

/-- The `CacheEntry` built from a selected row
(`render_time_ms ?? 0`). -/
def entryOfRow (r : RenderedPreviewRow) : CacheEntry :=
  { html := r.html, css := r.css, renderTimeMs := r.render_time_ms.getD 0 }

/-- `getCachedPreview(cacheKey, locals)`: select the first row whose
`cache_key` matches and whose `expires_at` is strictly in the future;
a backend failure is a cache miss (`catch` returns `null`). -/
def getCachedPreview (cacheKey : String) (db : CacheDB) (now : Nat) :
    Option CacheEntry :=
  match db with
  | .error _ => none
  | .ok rows =>
      match (rows.filter
          (fun r => r.cache_key == cacheKey && now < r.expires_at)).head? with
      | none => none
      | some r => some (entryOfRow r)

/-- `setCachedPreview(...)`: `INSERT OR REPLACE` keyed on the unique
`cache_key` column, with `expires_at = Date.now() + ttlMinutes*60*1000`;
a backend failure is swallowed and leaves the store unchanged. -/
def setCachedPreview (cacheKey sectionSlug : String)
    (presetSlug : Option String) (entry : CacheEntry) (ttlMinutes : Nat)
    (db : CacheDB) (now : Nat) : CacheDB :=
  match db with
  | .error e => .error e
  | .ok rows =>
      .ok ((rows.filter (fun r => r.cache_key != cacheKey)) ++
        [{ cache_key := cacheKey
           section_slug := sectionSlug
           preset_slug := presetSlug
           html := entry.html
           css := entry.css
           render_time_ms := some entry.renderTimeMs
           created_at := now
           expires_at := now + ttlMinutes * 60 * 1000 }])

/-- `invalidateSectionCache(sectionSlug, locals)`: delete the section's
rows and report how many were deleted; a backend failure is swallowed
and reports 0. -/
def invalidateSectionCache (sectionSlug : String) (db : CacheDB) :
    CacheDB × Nat :=
  match db with
  | .error e => (.error e, 0)
  | .ok rows =>
      let kept := rows.filter (fun r => r.section_slug != sectionSlug)
      (.ok kept, rows.length - kept.length)

/-- `invalidatePresetCache(presetSlug, locals)`: same, keyed on
`preset_slug`. -/
def invalidatePresetCache (presetSlug : String) (db : CacheDB) :
    CacheDB × Nat :=
  match db with
  | .error e => (.error e, 0)
  | .ok rows =>
      let kept := rows.filter (fun r => r.preset_slug != some presetSlug)
      (.ok kept, rows.length - kept.length)

end Cache

namespace Mock

/-! Embedding of `src/lib/liquid/mock-generator.ts` and the types of
`src/lib/liquid/mock-data.ts` / `src/lib/db/schema.ts`. Optional fields
of `RenderContext` that the generator never populates (`all_products`,
`article`, `blog`, `page`) are omitted; every other field is carried. -/

/-- `SectionSetting` of `db/schema.ts`. -/
structure SectionSetting where
  id : String
  type : String
  label : String
  default : Option JsonValue
  info : Option String

/-- `SectionBlock` of `db/schema.ts` (a declared block type). -/
structure SectionBlock where
  type : String
  name : String
  limit : Option Nat
  settings : Option (List SectionSetting)

/-- A block entry of a schema preset (`presets[0].blocks` as read by
`generateMockBlocks`): `{ type: string; settings?: Record<string, unknown> }`. -/
structure PresetBlock where
  type : String
  settings : Option JsRecord

/-- An entry of `SectionData.presets` (`unknown[]` on the TS side; the
generator reads only `blocks`). -/
structure SectionPreset where
  name : String
  blocks : Option (List PresetBlock)
  settings : Option JsRecord

/-- `SectionData` of `db/schema.ts`. -/
structure SectionData where
  name : String
  slug : String
  description : Option String
  category : String
  settings : List SectionSetting
  blocks : List SectionBlock
  maxBlocks : Nat
  presets : List SectionPreset

/-- `PresetColors` of `db/schema.ts` (all hex-string fields). -/
structure PresetColors where
  primary : String
  secondary : String
  accent : String
  background : String
  background_secondary : String
  text : String
  text_secondary : String

/-- `PresetTypography` of `db/schema.ts`. -/
structure PresetTypography where
  heading_font : String
  body_font : String
  heading_scale : Int
  body_scale : Int

/-- The optional preset argument of `generateMockDataFromSchema`:
`{ colors?: PresetColors; typography?: PresetTypography }`. -/
structure PresetInput where
  colors : Option PresetColors
  typography : Option PresetTypography

/-- `MockImageData` of `mock-data.ts`. -/
structure MockImageData where
  id : Nat
  src : String
  alt : String
  width : Nat
  height : Nat
  aspect_ratio : Nat
  attached_to_variant : Option Bool
  position : Option Nat

/-- `MockMediaData` of `mock-data.ts` (`media_type` is one of the
string literals of the TS union). -/
structure MockMediaData where
  id : Nat
  media_type : String
  preview_image : MockImageData
  alt : String
  position : Nat

/-- `MockVariantData` of `mock-data.ts`. -/
structure MockVariantData where
  id : Nat
  title : String
  sku : String
  barcode : String
  price : Int
  compare_at_price : Option Int
  available : Bool
  inventory_quantity : Nat
  inventory_policy : String
  option1 : Option String
  option2 : Option String
  option3 : Option String
  image : Option MockImageData
  featured_image : Option MockImageData
  url : String
  weight : Nat
  weight_unit : String

/-- `MockOptionData` of `mock-data.ts`. -/
structure MockOptionData where
  name : String
  position : Nat
  values : List String

/-- One `{ value, available }` entry of `options_with_values`. -/
structure MockOptionValue where
  value : String
  available : Bool

/-- `MockOptionWithValues` of `mock-data.ts`. -/
structure MockOptionWithValues where
  name : String
  position : Nat
  values : List MockOptionValue
  selected_value : String

/-- One `{ name, value }` sort option of a collection. -/
structure MockSortOption where
  name : String
  value : String

/-- `MockProductData` of `mock-data.ts`, parametric in the collection
type: the TS type is mutually recursive with `MockCollectionData`, and
the knot is tied below. -/
structure MockProductDataG (Collection : Type) where
  id : Nat
  title : String
  handle : String
  description : String
  price : Int
  price_min : Int
  price_max : Int
  compare_at_price : Option Int
  compare_at_price_min : Option Int
  compare_at_price_max : Option Int
  featured_image : MockImageData
  featured_media : MockMediaData
  images : List MockImageData
  media : List MockMediaData
  variants : List MockVariantData
  options : List MockOptionData
  options_with_values : List MockOptionWithValues
  vendor : String
  type : String
  tags : List String
  available : Bool
  selected_variant : Option MockVariantData
  selected_or_first_available_variant : MockVariantData
  first_available_variant : MockVariantData
  has_only_default_variant : Bool
  requires_selling_plan : Bool
  selling_plan_groups : List JsonValue
  url : String
  collections : List Collection

/-- `MockCollectionData` of `mock-data.ts`, parametric in the product
type. -/
structure MockCollectionDataG (Product : Type) where
  id : Nat
  title : String
  handle : String
  description : String
  image : Option MockImageData
  products : List Product
  products_count : Nat
  all_products_count : Nat
  all_tags : List String
  all_types : List String
  all_vendors : List String
  url : String
  current_type : Option String
  current_vendor : Option String
  sort_by : String
  sort_options : List MockSortOption

/-- The recursive knot of the two mutually recursive TS interfaces: a
collection is (one constructor around) collection data over products
whose `collections` field holds collections again. -/
inductive MockCollectionData where
  | mk (data : MockCollectionDataG (MockProductDataG MockCollectionData))

/-- `MockProductData` of `mock-data.ts`: product data whose
`collections` are collections. -/
abbrev MockProductData := MockProductDataG MockCollectionData

/-- `MockCartItem` of `mock-data.ts` (the mock cart carries none). -/
structure MockCartItem where
  id : Nat
  product_id : Nat
  variant_id : Nat
  title : String
  product : MockProductData
  variant : MockVariantData
  quantity : Nat
  price : Int
  line_price : Int
  original_price : Int
  original_line_price : Int
  discounted_price : Int
  final_price : Int
  final_line_price : Int
  image : Option MockImageData
  url : String
  properties : List (String × String)

/-- `MockAddressData` of `mock-data.ts`. -/
structure MockAddressData where
  id : Nat
  first_name : String
  last_name : String
  name : String
  company : Option String
  address1 : String
  address2 : Option String
  city : String
  province : String
  province_code : String
  country : String
  country_code : String
  zip : String
  phone : Option String

/-- `MockCustomer` of `mock-data.ts` (the mock shop's customer is
always `null`). -/
structure MockCustomer where
  id : Nat
  email : String
  first_name : String
  last_name : String
  name : String
  orders_count : Nat
  total_spent : Int
  tags : List String
  addresses : List MockAddressData
  default_address : Option MockAddressData

/-- A `{ iso_code }` currency record. -/
structure CurrencyInfo where
  iso_code : String

/-- A `{ iso_code, name }` locale record. -/
structure LocaleInfo where
  iso_code : String
  name : String

/-- The `shop` field of `MockShopData`. -/
structure ShopInfo where
  name : String
  description : String
  email : String
  url : String
  currency : CurrencyInfo
  money_format : String
  enabled_payment_types : List String

/-- The `request` field of `MockShopData`. -/
structure RequestInfo where
  locale : LocaleInfo
  host : String
  path : String

/-- The `template` field of `MockShopData`. -/
structure TemplateInfo where
  name : String
  suffix : Option String

/-- The `cart` field of `MockShopData`. -/
structure CartInfo where
  currency : CurrencyInfo
  item_count : Nat
  items : List MockCartItem
  total_price : Int
  original_total_price : Int

/-- `MockShopData` of `mock-data.ts`. -/
structure MockShopData where
  shop : ShopInfo
  request : RequestInfo
  template : TemplateInfo
  cart : CartInfo
  customer : Option MockCustomer
  canonical_url : String
  page_title : String
  page_description : String

/-- `MockLinkData` of `mock-data.ts`: a menu link with nested links. -/
inductive MockLinkData where
  | mk
    (active : Bool)
    (child_active : Bool)
    (current : Bool)
    (child_current : Bool)
    (handle : String)
    (levels : Nat)
    (links : List MockLinkData)
    (object : JsonValue)
    (title : String)
    (type : String)
    (url : String)

/-- `MockMenuData` of `mock-data.ts`. -/
structure MockMenuData where
  handle : String
  title : String
  levels : Nat
  links : List MockLinkData

/-- `MockBlockContext` of `mock-data.ts`. -/
structure MockBlockContext where
  id : String
  type : String
  settings : JsRecord
  shopify_attributes : String

/-- `MockSectionContext` of `mock-data.ts`. -/
structure MockSectionContext where
  id : String
  settings : JsRecord
  blocks : List MockBlockContext

/-- The `routes` field of `RenderContext`. -/
structure RoutesInfo where
  root_url : String
  account_url : String
  account_login_url : String
  account_logout_url : String
  account_register_url : String
  account_addresses_url : String
  collections_url : String
  all_products_collection_url : String
  search_url : String
  cart_url : String

/-- `RenderContext` of `mock-data.ts`, as populated by
`generateMockDataFromSchema` (theme settings are a `MockThemeSettings`
record, embedded as a `JsRecord`). -/
structure RenderContext where
  shop : ShopInfo
  request : RequestInfo
  template : TemplateInfo
  cart : CartInfo
  customer : Option MockCustomer
  canonical_url : String
  page_title : String
  page_description : String
  settings : JsRecord
  «section» : MockSectionContext
  product : Option MockProductData
  collection : Option MockCollectionData
  collections : Option (List MockCollectionData)
  linklists : List (String × MockMenuData)
  routes : RoutesInfo
  content_for_header : String
  content_for_layout : String

/-- One UTF-8 hex escape digit of `encodeURIComponent` (uppercase). -/
def hexDigitUpper (n : Nat) : Char :=
  if n < 10 then Char.ofNat (48 + n) else Char.ofNat (55 + n)

/-- One percent-encoded byte, `%XX`. -/
def percentByte (b : Nat) : String :=
  "%" ++ String.singleton (hexDigitUpper (b / 16)) ++
    String.singleton (hexDigitUpper (b % 16))

/-- UTF-8 bytes of a code point. -/
def utf8Bytes (n : Nat) : List Nat :=
  if n < 128 then [n]
  else if n < 2048 then [192 + n / 64, 128 + n % 64]
  else if n < 65536 then [224 + n / 4096, 128 + (n / 64) % 64, 128 + n % 64]
  else [240 + n / 262144, 128 + (n / 4096) % 64, 128 + (n / 64) % 64,
        128 + n % 64]

/-- Characters `encodeURIComponent` leaves unescaped:
alphanumerics and `- _ . ! ~ * ' ( )`. -/
def isUriUnescaped (c : Char) : Bool :=
  let n := c.toNat
  (48 ≤ n && n ≤ 57) || (65 ≤ n && n ≤ 90) || (97 ≤ n && n ≤ 122) ||
    n == 45 || n == 95 || n == 46 || n == 33 || n == 126 || n == 42 ||
    n == 39 || n == 40 || n == 41

/-- `encodeURIComponent`. -/
def encodeURIComponent (s : String) : String :=
  String.join (s.toList.map (fun c =>
    if isUriUnescaped c then String.singleton c
    else String.join ((utf8Bytes c.toNat).map percentByte)))

/-- `getPlaceholderImage(width, height, text?)` of `mock-generator.ts`:
the label is the encoded text when the text is truthy, else
`Preview`. -/
def getPlaceholderImage (width height : Nat) (text : Option String) :
    String :=
  let label := match text with
    | some t => if t == "" then "Preview" else encodeURIComponent t
    | none => "Preview"
  "https://placehold.co/" ++ toString width ++ "x" ++ toString height ++
    "/e2e8f0/64748b?text=" ++ label

/-- Is the character a lowercase ASCII letter or a digit (the
`[^a-z0-9]` complement of the handle regexes)? -/
def isLowerAlnum (c : Char) : Bool :=
  (97 ≤ c.toNat && c.toNat ≤ 122) || (48 ≤ c.toNat && c.toNat ≤ 57)

/-- Replace each maximal run of non-`[a-z0-9]` characters by a single
hyphen; the flag records whether a run is in progress. -/
def collapseNonAlnum : Bool → List Char → List Char
  | _, [] => []
  | inRun, c :: cs =>
      if isLowerAlnum c then c :: collapseNonAlnum false cs
      else if inRun then collapseNonAlnum true cs
      else Char.ofNat 45 :: collapseNonAlnum true cs

/-- `str.toLowerCase().replace(/[^a-z0-9]+/g, '-')`, the inline handle
computation of the mock generator. -/
def jsHandle (s : String) : String :=
  String.mk (collapseNonAlnum false s.toLower.toList)

/-- `generateMockImage(index = 0, category?)`. -/
def generateMockImage (index : Nat) (category : Option String) :
    MockImageData :=
  let width := 800
  let height := 800
  let cat := match category with
    | some c => if c == "" then "Product" else c
    | none => "Product"
  { id := 1000 + index
    src := getPlaceholderImage width height (some cat)
    alt := "Sample image " ++ toString (index + 1)
    width := width
    height := height
    aspect_ratio := width / height
    attached_to_variant := none
    position := some (index + 1) }

/-- `generateMockVariant(index, productHandle)`. -/
def generateMockVariant (index : Nat) (productHandle : String) :
    MockVariantData :=
  let sizes := ["Small", "Medium", "Large", "X-Large"]
  let colors := ["Black", "White", "Navy", "Gray"]
  let size := sizes.getD (index % sizes.length) ""
  let color := colors.getD ((index / sizes.length) % colors.length) ""
  let price : Int := 2999 + index * 500
  { id := 2000 + index
    title := size ++ " / " ++ color
    sku := "SKU-" ++ productHandle.toUpper ++ "-" ++ toString (index + 1)
    barcode := "123456789" ++ toString index
    price := price
    compare_at_price := if index % 2 == 0 then some (price + 1000) else none
    available := index % 3 != 2
    inventory_quantity := 10 + index
    inventory_policy := "deny"
    option1 := some size
    option2 := some color
    option3 := none
    image := none
    featured_image := none
    url := "/products/" ++ productHandle ++ "?variant=" ++
      toString (2000 + index)
    weight := 500
    weight_unit := "g" }

/-- `generateMockProduct(index = 0)`; the three images and four
variants of the source's `Array.from` calls are written out. -/
def generateMockProduct (index : Nat) : MockProductData :=
  let titles := ["Premium Cotton T-Shirt", "Classic Denim Jacket",
    "Leather Messenger Bag", "Wireless Headphones", "Organic Face Serum",
    "Handcrafted Ceramic Mug"]
  let vendors := ["Acme Co", "StyleBrand", "TechGear", "NatureCraft"]
  let types := ["Apparel", "Accessories", "Electronics", "Home & Garden"]
  let title := titles.getD (index % titles.length) ""
  let handle := jsHandle title
  let price : Int := 2999 + index * 1000
  let variant0 := generateMockVariant 0 handle
  let variants := [variant0, generateMockVariant 1 handle,
    generateMockVariant 2 handle, generateMockVariant 3 handle]
  let image0 := generateMockImage 0 (some "Product")
  let image1 := generateMockImage 1 (some "Product")
  let image2 := generateMockImage 2 (some "Product")
  { id := 1000 + index
    title := title
    handle := handle
    description := "<p>High-quality " ++ title.toLower ++
      " made with premium materials. Perfect for everyday use with exceptional durability and style.</p>"
    price := price
    price_min := price
    price_max := price + 2000
    compare_at_price := if index % 2 == 0 then some (price + 1500) else none
    compare_at_price_min :=
      if index % 2 == 0 then some (price + 1500) else none
    compare_at_price_max :=
      if index % 2 == 0 then some (price + 3500) else none
    featured_image := image0
    featured_media :=
      { id := 3000, media_type := "image", preview_image := image0,
        alt := title, position := 1 }
    images := [image0, image1, image2]
    media := [
      { id := 3000, media_type := "image", preview_image := image0,
        alt := image0.alt, position := 1 },
      { id := 3001, media_type := "image", preview_image := image1,
        alt := image1.alt, position := 2 },
      { id := 3002, media_type := "image", preview_image := image2,
        alt := image2.alt, position := 3 }]
    variants := variants
    options := [
      { name := "Size", position := 1,
        values := ["Small", "Medium", "Large", "X-Large"] },
      { name := "Color", position := 2,
        values := ["Black", "White", "Navy", "Gray"] }]
    options_with_values := [
      { name := "Size", position := 1, values := [
          { value := "Small", available := true },
          { value := "Medium", available := true },
          { value := "Large", available := true },
          { value := "X-Large", available := false }],
        selected_value := "Medium" },
      { name := "Color", position := 2, values := [
          { value := "Black", available := true },
          { value := "White", available := true },
          { value := "Navy", available := true },
          { value := "Gray", available := true }],
        selected_value := "Black" }]
    vendor := vendors.getD (index % vendors.length) ""
    type := types.getD (index % types.length) ""
    tags := (["new", "featured", "bestseller"]).take ((index % 3) + 1)
    available := true
    selected_variant := some variant0
    selected_or_first_available_variant := variant0
    first_available_variant := variant0
    has_only_default_variant := false
    requires_selling_plan := false
    selling_plan_groups := []
    url := "/products/" ++ handle
    collections := [] }

/-- `generateMockCollection(index = 0)`. -/
def generateMockCollection (index : Nat) : MockCollectionData :=
  let titles := ["New Arrivals", "Best Sellers", "Summer Collection",
    "Sale Items", "Featured Products"]
  let title := titles.getD (index % titles.length) ""
  let handle := jsHandle title
  let products := (List.range 8).map generateMockProduct
  MockCollectionData.mk
    { id := 5000 + index
      title := title
      handle := handle
      description := "<p>Explore our " ++ title.toLower ++
        " featuring the best products curated just for you.</p>"
      image := some (generateMockImage 0 (some "Collection"))
      products := products
      products_count := products.length
      all_products_count := 24
      all_tags := ["new", "featured", "sale", "bestseller"]
      all_types := ["Apparel", "Accessories", "Electronics"]
      all_vendors := ["Acme Co", "StyleBrand", "TechGear"]
      url := "/collections/" ++ handle
      current_type := none
      current_vendor := none
      sort_by := "best-selling"
      sort_options := [
        MockSortOption.mk "Best Selling" "best-selling",
        MockSortOption.mk "Alphabetically, A-Z" "title-ascending",
        MockSortOption.mk "Alphabetically, Z-A" "title-descending",
        MockSortOption.mk "Price, low to high" "price-ascending",
        MockSortOption.mk "Price, high to low" "price-descending",
        MockSortOption.mk "Date, old to new" "created-ascending",
        MockSortOption.mk "Date, new to old" "created-descending"] }

/-- `generateMockShop()`. -/
def generateMockShop : MockShopData :=
  { shop := {
      name := "Demo Store"
      description := "Your one-stop shop for quality products"
      email := "hello@demo-store.com"
      url := "https://demo-store.myshopify.com"
      currency := { iso_code := "USD" }
      money_format := "$\x7b\x7bamount\x7d\x7d"
      enabled_payment_types := ["visa", "mastercard", "amex", "paypal",
        "apple_pay", "google_pay"] }
    request := {
      locale := { iso_code := "en", name := "English" }
      host := "demo-store.myshopify.com"
      path := "/" }
    template := { name := "index", suffix := none }
    cart := {
      currency := { iso_code := "USD" }
      item_count := 3
      items := []
      total_price := 8997
      original_total_price := 10497 }
    customer := none
    canonical_url := "https://demo-store.myshopify.com/"
    page_title := "Demo Store"
    page_description := "Your one-stop shop for quality products" }

/-- The `typeDefaults` lookup table of `getDefaultValue` (a record on
the TS side; a missing type falls through to `?? null`). -/
def typeDefaults (t : String) : Option JsonValue :=
  match t with
  | "text" => some (.str "Sample text")
  | "textarea" =>
      some (.str "Sample paragraph text with more details about this section.")
  | "richtext" =>
      some (.str "<p>Sample rich text content with <strong>formatting</strong>.</p>")
  | "html" =>
      some (.str "<div class=\"custom-html\">Custom HTML content</div>")
  | "image_picker" => some .null
  | "video" => some .null
  | "video_url" => some .null
  | "url" => some (.str "#")
  | "checkbox" => some (.bool false)
  | "range" => some (.num 50)
  | "number" => some (.num 1)
  | "select" => some .null
  | "radio" => some .null
  | "color" => some (.str "#000000")
  | "color_background" => some (.str "rgba(0,0,0,0)")
  | "font_picker" => some (.str "sans-serif")
  | "collection" => some .null
  | "collection_list" => some (.arr [])
  | "product" => some .null
  | "product_list" => some (.arr [])
  | "blog" => some .null
  | "article" => some .null
  | "page" => some .null
  | "link_list" => some .null
  | "header" => some .null
  | "paragraph" => some .null
  | _ => none

/-- `getDefaultValue(setting)`: the setting's own default when defined,
else the type table entry, else `null`. -/
def getDefaultValue (setting : SectionSetting) : JsonValue :=
  match setting.default with
  | some v => v
  | none => (typeDefaults setting.type).getD .null

/-- `extractSettingsDefaults(settings)`: one entry per non-structural
setting (`header` and `paragraph` are skipped). -/
def extractSettingsDefaults (settings : List SectionSetting) : JsRecord :=
  settings.foldl (fun result setting =>
    if setting.type == "header" || setting.type == "paragraph" then result
    else jsMapSet result setting.id (getDefaultValue setting)) []

/-- The `shopify_attributes` string of a generated block context
(single quotes and braces written as hex escapes). -/
def blockAttributes (index : Nat) (type : String) : String :=
  "data-shopify-editor-block=\x27\x7b\"id\":\"block-" ++ toString index ++
    "\",\"type\":\"" ++ type ++ "\"\x7d\x27"

/-- The default-merging loop of `generateMockBlocks`: for each declared
setting missing from the block's settings, assign its default. In the
source this mutates the preset block's settings object in place. -/
def mergeBlockDefaults (blockSettings : JsRecord)
    (declared : List SectionSetting) : JsRecord :=
  declared.foldl (fun bs setting =>
    if jsMapHasKey bs setting.id then bs
    else jsMapSet bs setting.id (getDefaultValue setting)) blockSettings

/-- One preset block of `generateMockBlocks`: build its context and the
block's post-call state (when the block had a settings object, that
object now holds the merged settings). -/
def processPresetBlock (blockTypes : List SectionBlock) (index : Nat)
    (block : PresetBlock) : MockBlockContext × PresetBlock :=
  let base := block.settings.getD []
  let merged := match blockTypes.find? (fun bt => bt.type == block.type) with
    | some bt => match bt.settings with
      | some decl => mergeBlockDefaults base decl
      | none => base
    | none => base
  ({ id := "block-" ++ toString index
     type := block.type
     settings := merged
     shopify_attributes := blockAttributes index block.type },
   { block with settings := block.settings.map (fun _ => merged) })

/-- `preset.blocks.map` with its running index, threading the post-call
state of every preset block. -/
def processPresetBlocks (blockTypes : List SectionBlock) (index : Nat) :
    List PresetBlock → List MockBlockContext × List PresetBlock
  | [] => ([], [])
  | b :: bs =>
      let head := processPresetBlock blockTypes index b
      let tail := processPresetBlocks blockTypes (index + 1) bs
      (head.1 :: tail.1, head.2 :: tail.2)

/-- One synthesized sample block (the no-preset branch of
`generateMockBlocks`): fully populated from the block type's own
setting defaults. -/
def sampleBlock (index : Nat) (blockType : SectionBlock) :
    MockBlockContext :=
  let blockSettings := match blockType.settings with
    | some decl => decl.foldl
        (fun bs s => jsMapSet bs s.id (getDefaultValue s)) []
    | none => []
  { id := "block-" ++ toString index
    type := blockType.type
    settings := blockSettings
    shopify_attributes := blockAttributes index blockType.type }

/-- `blockTypes.slice(0, 3).map(...)` with its running index. -/
def sampleBlocks (index : Nat) : List SectionBlock → List MockBlockContext
  | [] => []
  | bt :: bts => sampleBlock index bt :: sampleBlocks (index + 1) bts

/-- `generateMockBlocks(blockTypes, presets?)`, with the post-call state
of the presets array as second component (the source mutates preset
block settings objects in place). -/
def generateMockBlocks (blockTypes : List SectionBlock)
    (presets : List SectionPreset) :
    List MockBlockContext × List SectionPreset :=
  match presets with
  | [] => (sampleBlocks 0 (blockTypes.take 3), [])
  | preset :: rest =>
      match preset.blocks with
      | some pblocks =>
          let processed := processPresetBlocks blockTypes 0 pblocks
          (processed.1, { preset with blocks := some processed.2 } :: rest)
      | none => (sampleBlocks 0 (blockTypes.take 3), preset :: rest)

/-- The seven `defaults.color_*` assignments of
`generateThemeSettings`. -/
def applyPresetColors (d : JsRecord) (c : PresetColors) : JsRecord :=
  let d := jsMapSet d "color_primary" (.str c.primary)
  let d := jsMapSet d "color_secondary" (.str c.secondary)
  let d := jsMapSet d "color_accent" (.str c.accent)
  let d := jsMapSet d "color_background" (.str c.background)
  let d := jsMapSet d "color_background_secondary" (.str c.background_secondary)
  let d := jsMapSet d "color_text" (.str c.text)
  jsMapSet d "color_text_secondary" (.str c.text_secondary)

/-- The four `defaults.typography_*` assignments of
`generateThemeSettings`. -/
def applyPresetTypography (d : JsRecord) (t : PresetTypography) : JsRecord :=
  let d := jsMapSet d "typography_heading_font" (.str t.heading_font)
  let d := jsMapSet d "typography_body_font" (.str t.body_font)
  let d := jsMapSet d "typography_heading_scale" (.num t.heading_scale)
  jsMapSet d "typography_body_scale" (.num t.body_scale)

/-- `generateThemeSettings(preset?)`: the fixed baseline record,
overlaid by preset colors and typography where provided. -/
def generateThemeSettings (preset : Option PresetInput) : JsRecord :=
  let defaults : JsRecord := [
    ("color_primary", .str "#2563eb"),
    ("color_secondary", .str "#64748b"),
    ("color_accent", .str "#f59e0b"),
    ("color_background", .str "#ffffff"),
    ("color_background_secondary", .str "#f8fafc"),
    ("color_text", .str "#1e293b"),
    ("color_text_secondary", .str "#64748b"),
    ("typography_heading_font", .str "Inter"),
    ("typography_body_font", .str "Inter"),
    ("typography_heading_scale", .num 100),
    ("typography_body_scale", .num 100),
    ("button_border_radius", .num 8),
    ("button_padding_vertical", .num 12),
    ("button_padding_horizontal", .num 24),
    ("page_width", .num 1200),
    ("spacing_sections", .num 48),
    ("social_twitter_link", .str ""),
    ("social_facebook_link", .str ""),
    ("social_instagram_link", .str "")]
  let defaults := match preset with
    | some pr => match pr.colors with
      | some c => applyPresetColors defaults c
      | none => defaults
    | none => defaults
  match preset with
  | some pr => match pr.typography with
    | some t => applyPresetTypography defaults t
    | none => defaults
  | none => defaults

/-- The `Partial<RenderContext>` produced by `generateMockEntities`. -/
structure MockEntities where
  product : Option MockProductData
  collection : Option MockCollectionData
  collections : Option (List MockCollectionData)

/-- `generateMockEntities(category)`: mock domain entities chosen by
the schema's category. -/
def generateMockEntities (category : String) : MockEntities :=
  match category with
  | "product" | "main-product" =>
      { product := some (generateMockProduct 0), collection := none,
        collections := none }
  | "collection" | "main-collection" =>
      { product := none, collection := some (generateMockCollection 0),
        collections := none }
  | "featured-collection" | "collection-list" =>
      let cols := (List.range 4).map generateMockCollection
      { product := none, collection := cols.head?, collections := some cols }
  | "hero" | "slideshow" | "image-banner" =>
      { product := none, collection := none, collections := none }
  | _ =>
      { product := some (generateMockProduct 0),
        collection := some (generateMockCollection 0), collections := none }

/-- The two fixed navigation menus of the generated context. -/
def mockLinklists : List (String × MockMenuData) :=
  [("main-menu",
    { handle := "main-menu", title := "Main Menu", levels := 2, links := [
      MockLinkData.mk false false false false "home" 0 [] .null
        "Home" "http" "/",
      MockLinkData.mk false false false false "catalog" 0 [] .null
        "Catalog" "collection" "/collections/all",
      MockLinkData.mk false false false false "about" 0 [] .null
        "About" "page" "/pages/about",
      MockLinkData.mk false false false false "contact" 0 [] .null
        "Contact" "page" "/pages/contact"] }),
   ("footer-menu",
    { handle := "footer-menu", title := "Footer Menu", levels := 1,
      links := [
      MockLinkData.mk false false false false "search" 0 [] .null
        "Search" "http" "/search",
      MockLinkData.mk false false false false "about" 0 [] .null
        "About Us" "page" "/pages/about",
      MockLinkData.mk false false false false "contact" 0 [] .null
        "Contact" "page" "/pages/contact"] })]

/-- The fixed `routes` record of the generated context. -/
def mockRoutes : RoutesInfo :=
  { root_url := "/"
    account_url := "/account"
    account_login_url := "/account/login"
    account_logout_url := "/account/logout"
    account_register_url := "/account/register"
    account_addresses_url := "/account/addresses"
    collections_url := "/collections"
    all_products_collection_url := "/collections/all"
    search_url := "/search"
    cart_url := "/cart" }

/-- `generateMockDataFromSchema(sectionSchema, preset?)`. The source
returns only the context; the second component is the post-call state
of the schema, whose first preset's block settings the source mutates
in place (explicit state passing). -/
def generateMockDataFromSchema (sectionSchema : SectionData)
    (preset : Option PresetInput) : RenderContext × SectionData :=
  let shopData := generateMockShop
  let sectionSettings := extractSettingsDefaults sectionSchema.settings
  let blocksResult :=
    generateMockBlocks sectionSchema.blocks sectionSchema.presets
  let themeSettings := generateThemeSettings preset
  let mockEntities := generateMockEntities sectionSchema.category
  ({ shop := shopData.shop
     request := shopData.request
     template := shopData.template
     cart := shopData.cart
     customer := shopData.customer
     canonical_url := shopData.canonical_url
     page_title := shopData.page_title
     page_description := shopData.page_description
     settings := themeSettings
     «section» := { id := sectionSchema.slug, settings := sectionSettings,
                    blocks := blocksResult.1 }
     product := mockEntities.product
     collection := mockEntities.collection
     collections := mockEntities.collections
     linklists := mockLinklists
     routes := mockRoutes
     content_for_header := "<!-- header content -->"
     content_for_layout := "<!-- main content -->" },
   { sectionSchema with presets := blocksResult.2 })

end Mock

namespace Engine

/-! Embedding of `src/lib/liquid/engine.ts`: the claim-relevant Shopify
filters and the schema-derived template and stylesheet generators used
by the render pipeline. -/

/-- `getPlaceholderImage(width, height)` of `engine.ts`. -/
def getPlaceholderImage (width height : Int) : String :=
  "https://placehold.co/" ++ toString width ++ "x" ++ toString height ++
    "/e2e8f0/64748b?text=Preview"

/-- The optional `{ width?, height? }` argument of the `image_url`
filter. -/
structure ImageUrlOptions where
  width : Option Int
  height : Option Int

/-- `src.startsWith(prefixStr)`, embedded as a code-point prefix test
(identical to the UTF-16 test on the ASCII strings involved) so that
concrete values reduce in the kernel. -/
def jsStartsWith (s prefixStr : String) : Bool :=
  List.isPrefixOf prefixStr.toList s.toList

/-- The `image_url` filter: a falsy (empty) `src` yields the 400x400
placeholder; a `src` starting with `http` is returned unchanged;
otherwise the placeholder uses `options?.width || 400` and
`options?.height || width` (`||` treats the number 0 as falsy). -/
def image_url (src : String) (options : Option ImageUrlOptions) : String :=
  if src == "" then getPlaceholderImage 400 400
  else if jsStartsWith src "http" then src
  else
    let width := match options with
      | some o => match o.width with
        | some w => if w == 0 then 400 else w
        | none => 400
      | none => 400
    let height := match options with
      | some o => match o.height with
        | some h => if h == 0 then width else h
        | none => width
      | none => width
    getPlaceholderImage width height

/-- Two decimal digits with a leading zero. -/
def pad2 (r : Nat) : String :=
  if r < 10 then "0" ++ toString r else toString r

/-- The exact value of `(cents / 100).toFixed(2)` for an integral
`cents`: for |cents| below the range where the double `cents / 100`
sits within half a hundredth of the true quotient (|cents| < 2^52/100),
`toFixed(2)` recovers the decimal expansion of cents/100. -/
def jsToFixed2OfCents (cents : Int) : String :=
  let sign := if cents < 0 then "-" else ""
  let n := cents.natAbs
  sign ++ toString (n / 100) ++ "." ++ pad2 (n % 100)

/-- The exact value of `(cents / 100).toFixed(0)` when `cents` is a
multiple of 100 (the only case the source evaluates it in). -/
def jsToFixed0OfCents (cents : Int) : String :=
  let sign := if cents < 0 then "-" else ""
  sign ++ toString (cents.natAbs / 100)

/-- The `money` filter: `` `$${(cents / 100).toFixed(2)}` ``. -/
def money (cents : Int) : String := "$" ++ jsToFixed2OfCents cents

/-- The `money_with_currency` filter: the same dollars with a
`" USD"` suffix. -/
def money_with_currency (cents : Int) : String :=
  "$" ++ jsToFixed2OfCents cents ++ " USD"

/-- The `money_without_currency` filter (identical computation to
`money` in the source). -/
def money_without_currency (cents : Int) : String :=
  "$" ++ jsToFixed2OfCents cents

/-- The `money_without_trailing_zeros` filter: `dollars % 1 === 0` (for
integral cents: cents divisible by 100) selects `toFixed(0)`, otherwise
`toFixed(2)`. -/
def money_without_trailing_zeros (cents : Int) : String :=
  "$" ++ (if cents % 100 == 0 then jsToFixed0OfCents cents
          else jsToFixed2OfCents cents)

/-- `generateHeroTemplate(section)` of `engine.ts` (the argument is
unused in the source too). -/
def generateHeroTemplate (_section : Mock.SectionData) : String :=
  "\n    <div class=\"hero\">\n      \x7b% if section.settings.heading %\x7d\n" ++
  "        <h1 class=\"hero__heading\">\x7b\x7b section.settings.heading \x7d\x7d</h1>\n" ++
  "      \x7b% endif %\x7d\n      \x7b% if section.settings.subheading %\x7d\n" ++
  "        <p class=\"hero__subheading\">\x7b\x7b section.settings.subheading \x7d\x7d</p>\n" ++
  "      \x7b% endif %\x7d\n      \x7b% if section.settings.button_label %\x7d\n" ++
  "        <a href=\"\x7b\x7b section.settings.button_link | default: \x27#\x27 \x7d\x7d\" class=\"hero__button button\">\n" ++
  "          \x7b\x7b section.settings.button_label \x7d\x7d\n        </a>\n" ++
  "      \x7b% endif %\x7d\n\n      \x7b% for block in section.blocks %\x7d\n" ++
  "        <div class=\"hero__block hero__block--\x7b\x7b block.type \x7d\x7d\" \x7b\x7b block.shopify_attributes \x7d\x7d>\n" ++
  "          \x7b% case block.type %\x7d\n            \x7b% when \x27heading\x27 %\x7d\n" ++
  "              <h2>\x7b\x7b block.settings.heading | default: \x27Heading\x27 \x7d\x7d</h2>\n" ++
  "            \x7b% when \x27text\x27 %\x7d\n" ++
  "              <p>\x7b\x7b block.settings.text | default: \x27Text content\x27 \x7d\x7d</p>\n" ++
  "            \x7b% when \x27button\x27 %\x7d\n" ++
  "              <a href=\"\x7b\x7b block.settings.link | default: \x27#\x27 \x7d\x7d\" class=\"button\">\n" ++
  "                \x7b\x7b block.settings.label | default: \x27Button\x27 \x7d\x7d\n" ++
  "              </a>\n            \x7b% when \x27image\x27 %\x7d\n" ++
  "              \x7b% if block.settings.image %\x7d\n" ++
  "                \x7b\x7b block.settings.image | image_url: width: 800 | image_tag: block.settings.image.alt \x7d\x7d\n" ++
  "              \x7b% else %\x7d\n" ++
  "                <div class=\"placeholder-image\">Image placeholder</div>\n" ++
  "              \x7b% endif %\x7d\n          \x7b% endcase %\x7d\n        </div>\n" ++
  "      \x7b% endfor %\x7d\n    </div>\n  "

/-- `generateCollectionTemplate(section)` of `engine.ts` (the argument is
unused in the source too). -/
def generateCollectionTemplate (_section : Mock.SectionData) : String :=
  "\n    <div class=\"collection-section\">\n" ++
  "      \x7b% if section.settings.heading %\x7d\n" ++
  "        <h2 class=\"collection-section__heading\">\x7b\x7b section.settings.heading \x7d\x7d</h2>\n" ++
  "      \x7b% endif %\x7d\n\n      \x7b% if collection %\x7d\n" ++
  "        <div class=\"collection-grid\">\n" ++
  "          \x7b% for product in collection.products limit: 8 %\x7d\n" ++
  "            <div class=\"product-card\">\n" ++
  "              <a href=\"\x7b\x7b product.url \x7d\x7d\">\n" ++
  "                \x7b% if product.featured_image %\x7d\n" ++
  "                  \x7b\x7b product.featured_image | image_url: width: 400 | image_tag: product.title \x7d\x7d\n" ++
  "                \x7b% else %\x7d\n" ++
  "                  <div class=\"product-card__placeholder\">No image</div>\n" ++
  "                \x7b% endif %\x7d\n" ++
  "                <h3 class=\"product-card__title\">\x7b\x7b product.title \x7d\x7d</h3>\n" ++
  "                <p class=\"product-card__price\">\x7b\x7b product.price | money \x7d\x7d</p>\n" ++
  "              </a>\n            </div>\n          \x7b% endfor %\x7d\n" ++
  "        </div>\n      \x7b% else %\x7d\n" ++
  "        <p class=\"collection-section__empty\">No collection selected</p>\n" ++
  "      \x7b% endif %\x7d\n    </div>\n  "

/-- `generateProductTemplate(section)` of `engine.ts` (the argument is
unused in the source too). -/
def generateProductTemplate (_section : Mock.SectionData) : String :=
  "\n    <div class=\"product-section\">\n      \x7b% if product %\x7d\n" ++
  "        <div class=\"product-section__media\">\n" ++
  "          \x7b% if product.featured_image %\x7d\n" ++
  "            \x7b\x7b product.featured_image | image_url: width: 600 | image_tag: product.title \x7d\x7d\n" ++
  "          \x7b% endif %\x7d\n        </div>\n" ++
  "        <div class=\"product-section__info\">\n" ++
  "          <h1 class=\"product-section__title\">\x7b\x7b product.title \x7d\x7d</h1>\n" ++
  "          <p class=\"product-section__price\">\x7b\x7b product.price | money \x7d\x7d</p>\n" ++
  "          <div class=\"product-section__description\">\x7b\x7b product.description \x7d\x7d</div>\n" ++
  "          <button type=\"button\" class=\"button product-section__button\">Add to Cart</button>\n" ++
  "        </div>\n      \x7b% else %\x7d\n        <p>No product selected</p>\n" ++
  "      \x7b% endif %\x7d\n    </div>\n  "

/-- `generateHeaderTemplate(section)` of `engine.ts` (the argument is
unused in the source too). -/
def generateHeaderTemplate (_section : Mock.SectionData) : String :=
  "\n    <header class=\"header\">\n      <div class=\"header__logo\">\n" ++
  "        \x7b% if section.settings.logo %\x7d\n" ++
  "          \x7b\x7b section.settings.logo | image_url: width: 200 | image_tag: shop.name \x7d\x7d\n" ++
  "        \x7b% else %\x7d\n" ++
  "          <span class=\"header__logo-text\">\x7b\x7b shop.name \x7d\x7d</span>\n" ++
  "        \x7b% endif %\x7d\n      </div>\n      <nav class=\"header__nav\">\n" ++
  "        \x7b% if linklists[\x27main-menu\x27] %\x7d\n" ++
  "          \x7b% for link in linklists[\x27main-menu\x27].links %\x7d\n" ++
  "            <a href=\"\x7b\x7b link.url \x7d\x7d\" class=\"header__nav-link\x7b% if link.active %\x7d header__nav-link--active\x7b% endif %\x7d\">\n" ++
  "              \x7b\x7b link.title \x7d\x7d\n            </a>\n" ++
  "          \x7b% endfor %\x7d\n        \x7b% endif %\x7d\n      </nav>\n" ++
  "      <div class=\"header__actions\">\n" ++
  "        <a href=\"\x7b\x7b routes.search_url \x7d\x7d\" class=\"header__icon\">Search</a>\n" ++
  "        <a href=\"\x7b\x7b routes.cart_url \x7d\x7d\" class=\"header__icon\">Cart (\x7b\x7b cart.item_count \x7d\x7d)</a>\n" ++
  "      </div>\n    </header>\n  "

/-- `generateFooterTemplate(section)` of `engine.ts` (the argument is
unused in the source too). -/
def generateFooterTemplate (_section : Mock.SectionData) : String :=
  "\n    <footer class=\"footer\">\n      <div class=\"footer__content\">\n" ++
  "        \x7b% for block in section.blocks %\x7d\n" ++
  "          <div class=\"footer__block footer__block--\x7b\x7b block.type \x7d\x7d\" \x7b\x7b block.shopify_attributes \x7d\x7d>\n" ++
  "            \x7b% case block.type %\x7d\n" ++
  "              \x7b% when \x27menu\x27 %\x7d\n" ++
  "                <h4>\x7b\x7b block.settings.heading | default: \x27Menu\x27 \x7d\x7d</h4>\n" ++
  "                \x7b% if linklists[\x27footer-menu\x27] %\x7d\n" ++
  "                  <ul class=\"footer__menu\">\n" ++
  "                    \x7b% for link in linklists[\x27footer-menu\x27].links %\x7d\n" ++
  "                      <li><a href=\"\x7b\x7b link.url \x7d\x7d\">\x7b\x7b link.title \x7d\x7d</a></li>\n" ++
  "                    \x7b% endfor %\x7d\n                  </ul>\n" ++
  "                \x7b% endif %\x7d\n              \x7b% when \x27text\x27 %\x7d\n" ++
  "                <h4>\x7b\x7b block.settings.heading | default: \x27About\x27 \x7d\x7d</h4>\n" ++
  "                <p>\x7b\x7b block.settings.text | default: \x27About text\x27 \x7d\x7d</p>\n" ++
  "            \x7b% endcase %\x7d\n          </div>\n        \x7b% endfor %\x7d\n" ++
  "      </div>\n      <div class=\"footer__copyright\">\n" ++
  "        <p>&copy; \x7b\x7b \x27now\x27 | date: \x27%Y\x27 \x7d\x7d \x7b\x7b shop.name \x7d\x7d. All rights reserved.</p>\n" ++
  "      </div>\n    </footer>\n  "

/-- `generateGenericTemplate(section)` of `engine.ts` (the argument is
unused in the source too). -/
def generateGenericTemplate (_section : Mock.SectionData) : String :=
  "\n    <div class=\"generic-section\">\n" ++
  "      \x7b% if section.settings.heading %\x7d\n" ++
  "        <h2 class=\"generic-section__heading\">\x7b\x7b section.settings.heading \x7d\x7d</h2>\n" ++
  "      \x7b% endif %\x7d\n\n" ++
  "      \x7b% if section.settings.text or section.settings.content %\x7d\n" ++
  "        <div class=\"generic-section__content\">\n" ++
  "          \x7b\x7b section.settings.text | default: section.settings.content \x7d\x7d\n" ++
  "        </div>\n      \x7b% endif %\x7d\n\n" ++
  "      \x7b% for block in section.blocks %\x7d\n" ++
  "        <div class=\"generic-section__block generic-section__block--\x7b\x7b block.type \x7d\x7d\" \x7b\x7b block.shopify_attributes \x7d\x7d>\n" ++
  "          \x7b% case block.type %\x7d\n            \x7b% when \x27heading\x27 %\x7d\n" ++
  "              <h3>\x7b\x7b block.settings.heading | default: block.settings.text | default: \x27Heading\x27 \x7d\x7d</h3>\n" ++
  "            \x7b% when \x27text\x27 %\x7d\n" ++
  "              <p>\x7b\x7b block.settings.text | default: \x27Text content\x27 \x7d\x7d</p>\n" ++
  "            \x7b% when \x27button\x27 %\x7d\n" ++
  "              <a href=\"\x7b\x7b block.settings.link | default: \x27#\x27 \x7d\x7d\" class=\"button\">\n" ++
  "                \x7b\x7b block.settings.label | default: block.settings.text | default: \x27Button\x27 \x7d\x7d\n" ++
  "              </a>\n            \x7b% when \x27image\x27 %\x7d\n" ++
  "              \x7b% if block.settings.image %\x7d\n" ++
  "                \x7b\x7b block.settings.image | image_url: width: 600 | image_tag \x7d\x7d\n" ++
  "              \x7b% else %\x7d\n" ++
  "                <div class=\"placeholder-image\">Image</div>\n" ++
  "              \x7b% endif %\x7d\n            \x7b% else %\x7d\n" ++
  "              <div class=\"block-placeholder\">\x7b\x7b block.type \x7d\x7d</div>\n" ++
  "          \x7b% endcase %\x7d\n        </div>\n      \x7b% endfor %\x7d\n    </div>\n" ++
  "  "

/-- `generatePreviewCSS(section)` of `engine.ts`: the fixed preview
stylesheet, with the section name interpolated into the header
comment. -/
def generatePreviewCSS (s : Mock.SectionData) : String :=
  "\n    /* Preview styles for " ++ s.name ++
  " */\n    .section \x7b\n      padding: 2rem 0;\n" ++
  "      font-family: system-ui, -apple-system, sans-serif;\n    \x7d\n\n" ++
  "    .container \x7b\n      max-width: 1200px;\n      margin: 0 auto;\n" ++
  "      padding: 0 1rem;\n    \x7d\n\n    /* Hero styles */\n    .hero \x7b\n" ++
  "      text-align: center;\n      padding: 4rem 2rem;\n" ++
  "      background: linear-gradient(135deg, #f0f4f8 0%, #e2e8f0 100%);\n" ++
  "      border-radius: 0.5rem;\n    \x7d\n\n    .hero__heading \x7b\n" ++
  "      font-size: 2.5rem;\n      font-weight: 700;\n      margin-bottom: 1rem;\n" ++
  "      color: #1e293b;\n    \x7d\n\n    .hero__subheading \x7b\n" ++
  "      font-size: 1.25rem;\n      color: #64748b;\n      margin-bottom: 2rem;\n" ++
  "    \x7d\n\n    /* Button styles */\n    .button \x7b\n      display: inline-block;\n" ++
  "      padding: 0.75rem 1.5rem;\n      background: #2563eb;\n      color: white;\n" ++
  "      text-decoration: none;\n      border-radius: 0.375rem;\n" ++
  "      font-weight: 500;\n      transition: background 0.2s;\n    \x7d\n\n" ++
  "    .button:hover \x7b\n      background: #1d4ed8;\n    \x7d\n\n" ++
  "    /* Collection grid */\n    .collection-grid \x7b\n      display: grid;\n" ++
  "      grid-template-columns: repeat(auto-fill, minmax(200px, 1fr));\n" ++
  "      gap: 1.5rem;\n    \x7d\n\n    /* Product card */\n    .product-card \x7b\n" ++
  "      border: 1px solid #e2e8f0;\n      border-radius: 0.5rem;\n" ++
  "      overflow: hidden;\n      transition: box-shadow 0.2s;\n    \x7d\n\n" ++
  "    .product-card:hover \x7b\n      box-shadow: 0 4px 6px -1px rgba(0, 0, 0, 0.1);\n" ++
  "    \x7d\n\n    .product-card a \x7b\n      text-decoration: none;\n" ++
  "      color: inherit;\n    \x7d\n\n    .product-card img \x7b\n      width: 100%;\n" ++
  "      height: auto;\n      display: block;\n    \x7d\n\n" ++
  "    .product-card__title \x7b\n      font-size: 1rem;\n      padding: 0.75rem;\n" ++
  "      margin: 0;\n    \x7d\n\n    .product-card__price \x7b\n" ++
  "      padding: 0 0.75rem 0.75rem;\n      color: #64748b;\n      margin: 0;\n" ++
  "    \x7d\n\n    /* Product section */\n    .product-section \x7b\n" ++
  "      display: grid;\n      grid-template-columns: 1fr 1fr;\n      gap: 2rem;\n" ++
  "    \x7d\n\n    .product-section__media img \x7b\n      width: 100%;\n" ++
  "      height: auto;\n      border-radius: 0.5rem;\n    \x7d\n\n" ++
  "    .product-section__title \x7b\n      font-size: 2rem;\n" ++
  "      margin-bottom: 0.5rem;\n    \x7d\n\n    .product-section__price \x7b\n" ++
  "      font-size: 1.5rem;\n      color: #2563eb;\n      margin-bottom: 1rem;\n" ++
  "    \x7d\n\n    /* Header */\n    .header \x7b\n      display: flex;\n" ++
  "      align-items: center;\n      justify-content: space-between;\n" ++
  "      padding: 1rem 0;\n      border-bottom: 1px solid #e2e8f0;\n    \x7d\n\n" ++
  "    .header__logo-text \x7b\n      font-size: 1.5rem;\n      font-weight: 700;\n" ++
  "    \x7d\n\n    .header__nav \x7b\n      display: flex;\n      gap: 1.5rem;\n" ++
  "    \x7d\n\n    .header__nav-link \x7b\n      text-decoration: none;\n" ++
  "      color: #64748b;\n    \x7d\n\n    .header__nav-link:hover,\n" ++
  "    .header__nav-link--active \x7b\n      color: #1e293b;\n    \x7d\n\n" ++
  "    .header__actions \x7b\n      display: flex;\n      gap: 1rem;\n    \x7d\n\n" ++
  "    .header__icon \x7b\n      text-decoration: none;\n      color: #64748b;\n" ++
  "    \x7d\n\n    /* Footer */\n    .footer \x7b\n      background: #f8fafc;\n" ++
  "      padding: 3rem 0 1.5rem;\n      margin-top: 2rem;\n    \x7d\n\n" ++
  "    .footer__content \x7b\n      display: grid;\n" ++
  "      grid-template-columns: repeat(auto-fit, minmax(200px, 1fr));\n" ++
  "      gap: 2rem;\n      margin-bottom: 2rem;\n    \x7d\n\n    .footer__menu \x7b\n" ++
  "      list-style: none;\n      padding: 0;\n      margin: 0;\n    \x7d\n\n" ++
  "    .footer__menu a \x7b\n      color: #64748b;\n      text-decoration: none;\n" ++
  "    \x7d\n\n    .footer__copyright \x7b\n      text-align: center;\n" ++
  "      color: #94a3b8;\n      font-size: 0.875rem;\n" ++
  "      border-top: 1px solid #e2e8f0;\n      padding-top: 1.5rem;\n    \x7d\n\n" ++
  "    /* Generic section */\n    .generic-section__heading \x7b\n" ++
  "      font-size: 1.75rem;\n      margin-bottom: 1rem;\n    \x7d\n\n" ++
  "    .generic-section__content \x7b\n      color: #64748b;\n" ++
  "      margin-bottom: 1.5rem;\n    \x7d\n\n    .generic-section__block \x7b\n" ++
  "      margin-bottom: 1rem;\n    \x7d\n\n    /* Placeholder */\n" ++
  "    .placeholder-image \x7b\n      background: #e2e8f0;\n      padding: 2rem;\n" ++
  "      text-align: center;\n      color: #94a3b8;\n      border-radius: 0.5rem;\n" ++
  "    \x7d\n\n    .block-placeholder \x7b\n      background: #f1f5f9;\n" ++
  "      padding: 1rem;\n      border-radius: 0.25rem;\n      color: #94a3b8;\n" ++
  "      font-style: italic;\n    \x7d\n\n    /* Images */\n    img \x7b\n" ++
  "      max-width: 100%;\n      height: auto;\n    \x7d\n  "
/-- `generateTemplateFromSchema(section)`: the category-dispatched
fallback template, wrapped in the section container markup. -/
def generateTemplateFromSchema (s : Mock.SectionData) : String :=
  let body := match s.category with
    | "hero" => generateHeroTemplate s
    | "collection" | "featured-collection" => generateCollectionTemplate s
    | "product" => generateProductTemplate s
    | "header" => generateHeaderTemplate s
    | "footer" => generateFooterTemplate s
    | _ => generateGenericTemplate s
  String.intercalate "\n" [
    "<section class=\"section section--" ++ s.slug ++
      "\" data-section-id=\"\x7b\x7b section.id \x7d\x7d\">",
    "  <div class=\"section__container container\">",
    body,
    "  </div>",
    "</section>"]

end Engine

namespace Pipeline

/-! Embedding of the render pipeline of `engine.ts` (`renderSection`,
`renderSectionsBatch`). The I/O collaborators — the content collection,
the preset files, the stored templates, the liquidjs engine and the
clock — become an explicit environment, and the D1 cache is threaded
through as state. -/

/-- `RenderResult` of `engine.ts`. -/
structure RenderResult where
  html : String
  css : String
  errors : List String
  renderTimeMs : Nat
  cached : Bool

/-- The environment of one render call: the external collaborators of
the pipeline. `parseAndRender` models `engine.parseAndRender`: a thrown
render-time exception is its `Except.error` message (`error.message`,
or the source's `Unknown render error` for a non-`Error` throw).
`elapsedNotFound` and `elapsedRender` are the two measured
`performance.now()` differences. -/
structure RenderEnv where
  sections : String → Option Mock.SectionData
  presets : String → Option Mock.PresetInput
  templates : String → Option String
  parseAndRender : String → Mock.RenderContext → Except String String
  db : Cache.CacheDB
  now : Nat
  elapsedNotFound : Nat
  elapsedRender : Nat

/-- `RenderOptions` of `engine.ts` (`locals` is carried by the
environment; an absent `skipCache` is the falsy `false`). -/
structure RenderOptions where
  sectionSlug : String
  presetSlug : Option String
  customSettings : Option JsRecord
  skipCache : Bool

/-- `renderSection(options)`, returning the `RenderResult` together
with the post-call state of the cache store. -/
def renderSection (options : RenderOptions) (env : RenderEnv) :
    RenderResult × Cache.CacheDB :=
  let settingsHash := options.customSettings.map Cache.hashSettings
  let cacheKey :=
    Cache.generateCacheKey options.sectionSlug options.presetSlug settingsHash
  let cachedHit := if options.skipCache then none
    else Cache.getCachedPreview cacheKey env.db env.now
  match cachedHit with
  | some cached =>
      ({ html := cached.html
         css := cached.css.getD ""
         errors := []
         renderTimeMs := cached.renderTimeMs
         cached := true }, env.db)
  | none =>
      match env.sections options.sectionSlug with
      | none =>
          ({ html := "<div class=\"error\">Section not found: " ++
               options.sectionSlug ++ "</div>"
             css := ""
             errors := ["Section not found: " ++ options.sectionSlug]
             renderTimeMs := env.elapsedNotFound
             cached := false }, env.db)
      | some sectionData =>
          let presetData := match options.presetSlug with
            | some p => env.presets p
            | none => none
          let template := match env.templates options.sectionSlug with
            | some t => t
            | none => Engine.generateTemplateFromSchema sectionData
          let context := (Mock.generateMockDataFromSchema sectionData
            presetData).1
          let context := match options.customSettings with
            | some cs =>
                { context with «section» :=
                    { context.«section» with
                        settings := objectAssign context.«section».settings cs } }
            | none => context
          let rendered := match env.parseAndRender template context with
            | .ok h => (h, ([] : List String))
            | .error message =>
                ("<div class=\"error\">Render error: " ++ message ++ "</div>",
                 [message])
          let css := Engine.generatePreviewCSS sectionData
          let renderTimeMs := env.elapsedRender
          let db := if !options.skipCache && rendered.2.isEmpty then
              Cache.setCachedPreview cacheKey options.sectionSlug
                options.presetSlug
                { html := rendered.1, css := some css,
                  renderTimeMs := renderTimeMs } 60 env.db env.now
            else env.db
          ({ html := rendered.1
             css := css
             errors := rendered.2
             renderTimeMs := renderTimeMs
             cached := false }, db)

/-- `renderSectionsBatch(slugs, presetSlug, locals)`: the first 20
slugs, each rendered independently through `renderSection` against the
same initial environment, collected into a slug-keyed map (a JS `Map`,
embedded as an insertion-ordered association list with `jsMapSet`
replacement semantics). -/
def renderSectionsBatch (slugs : List String) (presetSlug : Option String)
    (env : RenderEnv) : List (String × RenderResult) :=
  let limitedSlugs := slugs.take 20
  limitedSlugs.foldl (fun results slug =>
    jsMapSet results slug
      (renderSection
        { sectionSlug := slug, presetSlug := presetSlug,
          customSettings := none, skipCache := false } env).1) []

end Pipeline

/-! Spec-side helper definitions and concrete sample inputs used by the
theorems below. -/

namespace Engine

/-- The claim's "requested width" of an `image_url` call:
`options?.width || 400`. -/
def requestedWidth (options : Option ImageUrlOptions) : Int :=
  match options with
  | some o => match o.width with
    | some w => if w == 0 then 400 else w
    | none => 400
  | none => 400

/-- The claim's "requested height" of an `image_url` call:
`options?.height || width`. -/
def requestedHeight (options : Option ImageUrlOptions) : Int :=
  match options with
  | some o => match o.height with
    | some h => if h == 0 then requestedWidth options else h
    | none => requestedWidth options
  | none => requestedWidth options

end Engine

/-- The settings record of the first block of the first preset, when
present: the object `generateMockBlocks` mutates in place. -/
def firstPresetBlockSettings (s : Mock.SectionData) : Option JsRecord :=
  match s.presets with
  | p :: _ =>
      match p.blocks with
      | some (b :: _) => b.settings
      | _ => none
  | [] => none

/-- A section schema whose first preset declares a block with an empty
settings object while its block type declares a `text` setting: the
generator inserts the missing default into that object. -/
def presetBlockSchema : Mock.SectionData :=
  { name := "Sample Hero"
    slug := "sample-hero"
    description := none
    category := "hero"
    settings := []
    blocks := [
      { type := "text"
        name := "Text"
        limit := none
        settings := some [
          { id := "text"
            type := "text"
            label := "Text"
            default := none
            info := none }] }]
    maxBlocks := 3
    presets := [
      { name := "Default"
        blocks := some [{ type := "text", settings := some [] }]
        settings := none }] }

/-- A minimal section schema with no blocks and no presets. -/
def plainSection : Mock.SectionData :=
  { name := "Hero Banner"
    slug := "hero-banner"
    description := none
    category := "hero"
    settings := []
    blocks := []
    maxBlocks := 0
    presets := [] }

/-- An environment whose template engine always throws `boom`, with one
known section and an empty healthy cache. -/
def throwingEnv : Pipeline.RenderEnv :=
  { sections := fun s => if s == "hero-banner" then some plainSection
      else none
    presets := fun _ => none
    templates := fun _ => some "stored template"
    parseAndRender := fun _ _ => .error "boom"
    db := .ok []
    now := 0
    elapsedNotFound := 7
    elapsedRender := 12 }

/-- An environment whose cache backend fails on every operation. -/
def failingDbEnv : Pipeline.RenderEnv :=
  { sections := fun s => if s == "hero-banner" then some plainSection
      else none
    presets := fun _ => none
    templates := fun _ => some "stored template"
    parseAndRender := fun _ _ => .ok "<div>ok</div>"
    db := .error ()
    now := 0
    elapsedNotFound := 7
    elapsedRender := 12 }

/-- An environment for the batch scenario: every section except `c`
exists, rendering succeeds, the cache is empty. -/
def batchEnv : Pipeline.RenderEnv :=
  { sections := fun s => if s == "c" then none else some plainSection
    presets := fun _ => none
    templates := fun _ => some "stored template"
    parseAndRender := fun _ _ => .ok "<div>ok</div>"
    db := .ok []
    now := 0
    elapsedNotFound := 7
    elapsedRender := 12 }

/-- A live cache row for the `getCachedPreview` witness. -/
def liveRow : Cache.RenderedPreviewRow :=
  { cache_key := "hero-banner"
    section_slug := "hero-banner"
    preset_slug := none
    html := "<div>cached</div>"
    css := some "css"
    render_time_ms := some 5
    created_at := 0
    expires_at := 100 }

/-! Theorems. -/

set_option maxRecDepth 8000

/-- C1 (counterexample): the cache key is not order-independent in the
overrides map — the same two entries in the two insertion orders yield
different keys, because `hashSettings` hashes `JSON.stringify`, which
serializes properties in insertion order. -/
theorem cacheKey_order_dependent :
    Cache.generateCacheKey "hero-banner" (some "minimal")
        (some (Cache.hashSettings [("a", .str "1"), ("b", .str "2")])) ≠
      Cache.generateCacheKey "hero-banner" (some "minimal")
        (some (Cache.hashSettings [("b", .str "2"), ("a", .str "1")])) := by
  decide

/-- C1 (amended): the cache key follows the JSON serialization of the
overrides map, so it is order-sensitive — the same entries in a
different insertion order can yield a different key — and a changed
entry value can leave the key unchanged, because the 32-bit rolling
hash collides (`"Aa"` and `"BB"` hash alike at any position). -/
theorem cacheKey_order_sensitive_and_collides :
    (Cache.generateCacheKey "hero-banner" (some "minimal")
        (some (Cache.hashSettings [("heading", .str "Hi"), ("show", .bool true)])) ≠
      Cache.generateCacheKey "hero-banner" (some "minimal")
        (some (Cache.hashSettings [("show", .bool true), ("heading", .str "Hi")]))) ∧
    (Cache.hashSettings [("x", .str "Aa")] =
        Cache.hashSettings [("x", .str "BB")] ∧
      Cache.generateCacheKey "hero-banner" (some "minimal")
          (some (Cache.hashSettings [("x", .str "Aa")])) =
        Cache.generateCacheKey "hero-banner" (some "minimal")
          (some (Cache.hashSettings [("x", .str "BB")]))) := by
  refine ⟨by decide, by decide, by decide⟩

/-- C10: `generateCacheKey` joins its truthy parts with `:` and drops
falsy (empty) ones, so distinct inputs can share a key: a slug
containing `:` collides with a slug-preset pair, and an empty preset or
hash argument produces the same key as an absent one. -/
theorem generateCacheKey_not_injective :
    Cache.generateCacheKey "a:b" none none =
        Cache.generateCacheKey "a" (some "b") none ∧
      Cache.generateCacheKey "a" (some "") none =
        Cache.generateCacheKey "a" none none ∧
      Cache.generateCacheKey "a" (some "b") (some "") =
        Cache.generateCacheKey "a" (some "b") none := by
  refine ⟨by decide, by decide, by decide⟩

/-- Prepending the empty string is the identity. -/
theorem empty_string_append (s : String) : "" ++ s = s := by
  cases s with
  | mk data => rfl

/-- C8: the money filters format integral cents exactly — `money` is
`$` before cents/100 with two decimal digits, `money_without_currency`
computes the same string, `money_with_currency` adds a `" USD"` suffix,
and `money_without_trailing_zeros` drops the decimals exactly on whole
dollar amounts; including the spec's four concrete examples. -/
theorem money_filters_format (cents : Int) (h : 0 ≤ cents) :
    Engine.money cents =
        "$" ++ toString (cents.toNat / 100) ++ "." ++
          Engine.pad2 (cents.toNat % 100) ∧
      Engine.money_without_currency cents = Engine.money cents ∧
      Engine.money_with_currency cents = Engine.money cents ++ " USD" ∧
      Engine.money_without_trailing_zeros cents =
        (if cents.toNat % 100 = 0 then "$" ++ toString (cents.toNat / 100)
         else Engine.money cents) ∧
      Engine.money 299 = "$2.99" ∧ Engine.money 300 = "$3.00" ∧
      Engine.money_without_trailing_zeros 300 = "$3" ∧
      Engine.money_without_trailing_zeros 350 = "$3.50" := by
  obtain ⟨n, rfl⟩ := Int.eq_ofNat_of_zero_le h
  have hneg : ¬((n : Int) < 0) := by omega
  have habs : (Int.ofNat n).natAbs = n := Int.natAbs_ofNat n
  have htn : (Int.ofNat n).toNat = n := rfl
  refine ⟨?_, rfl, ?_, ?_, by decide, by decide, by decide, by decide⟩
  · simp [Engine.money, Engine.jsToFixed2OfCents, hneg, habs, htn,
      empty_string_append, String.append_assoc]
  · simp [Engine.money_with_currency, Engine.money, String.append_assoc]
  · by_cases hmod : n % 100 = 0
    · have hdvd : (100 : Int) ∣ (n : Int) := by omega
      simp [Engine.money_without_trailing_zeros, Engine.jsToFixed0OfCents,
        hdvd, hmod, hneg, habs, htn, empty_string_append]
    · have hdvd : ¬((100 : Int) ∣ (n : Int)) := by omega
      simp [Engine.money_without_trailing_zeros, Engine.money,
        Engine.jsToFixed2OfCents, hdvd, hmod, hneg, habs, htn,
        empty_string_append, String.append_assoc]

/-- C8 (witness): the theorem applied at 299 cents. -/
theorem money_filters_format_witness :
    (0 : Int) ≤ 299 ∧
      (Engine.money 299 =
          "$" ++ toString ((299 : Int).toNat / 100) ++ "." ++
            Engine.pad2 ((299 : Int).toNat % 100) ∧
        Engine.money_without_currency 299 = Engine.money 299 ∧
        Engine.money_with_currency 299 = Engine.money 299 ++ " USD" ∧
        Engine.money_without_trailing_zeros 299 =
          (if (299 : Int).toNat % 100 = 0 then
            "$" ++ toString ((299 : Int).toNat / 100)
           else Engine.money 299) ∧
        Engine.money 299 = "$2.99" ∧ Engine.money 300 = "$3.00" ∧
        Engine.money_without_trailing_zeros 300 = "$3" ∧
        Engine.money_without_trailing_zeros 350 = "$3.50") :=
  ⟨by decide, money_filters_format 299 (by decide)⟩

/-- C9 (counterexample): the claim fails for an empty `src` with a
requested width — `image_url('', {width: 800})` returns the fixed
400x400 placeholder, not the 800x800 one the claim requires, because
the falsy-`src` early return ignores the options. -/
theorem image_url_ignores_options_on_empty_src :
    Engine.image_url "" (some { width := some 800, height := none }) =
        Engine.getPlaceholderImage 400 400 ∧
      Engine.image_url "" (some { width := some 800, height := none }) ≠
        Engine.getPlaceholderImage 800 800 := by
  refine ⟨by decide, by decide⟩

/-- C9 (amended): a falsy (empty or absent) `src` always yields the
400x400 placeholder, options ignored; a `src` starting with `http` is
returned unchanged; any other non-empty `src` yields the placeholder at
the requested width (`options?.width || 400`, so 0 and absence default
to 400) and height (`options?.height || width`). -/
theorem image_url_cases (src : String)
    (options : Option Engine.ImageUrlOptions) :
    (src = "" → Engine.image_url src options =
      Engine.getPlaceholderImage 400 400) ∧
    (src ≠ "" → Engine.jsStartsWith src "http" = true →
      Engine.image_url src options = src) ∧
    (src ≠ "" → Engine.jsStartsWith src "http" = false →
      Engine.image_url src options =
        Engine.getPlaceholderImage (Engine.requestedWidth options)
          (Engine.requestedHeight options)) := by
  refine ⟨?_, ?_, ?_⟩
  · intro h
    subst h
    simp [Engine.image_url]
  · intro h1 h2
    simp [Engine.image_url, h1, h2]
  · intro h1 h2
    simp [Engine.image_url, Engine.requestedWidth, Engine.requestedHeight,
      h1, h2]

/-- C9 (witness): the amended theorem applied to a non-URL source with
a falsy requested width of 0. -/
theorem image_url_cases_witness :
    ("img.png" ≠ "") ∧ Engine.jsStartsWith "img.png" "http" = false ∧
      Engine.image_url "img.png" (some { width := some 0, height := none }) =
        Engine.getPlaceholderImage
          (Engine.requestedWidth (some { width := some 0, height := none }))
          (Engine.requestedHeight (some { width := some 0, height := none })) :=
  ⟨by decide, by decide,
    (image_url_cases "img.png" (some { width := some 0, height := none })).2.2
      (by decide) (by decide)⟩

/-- The head of a list, when present, is a member. -/
theorem head?_mem {α : Type} {l : List α} {a : α} (h : l.head? = some a) :
    a ∈ l := by
  cases l with
  | nil => simp at h
  | cons x xs =>
      simp [List.head?] at h
      simp [h]

/-- C4: `getCachedPreview` never returns a stored entry whose
`expires_at` is not strictly in the future — any returned entry comes
from a row of the store whose expiry exceeds the current time, so an
expired row is reported absent even before any sweep deletes it. -/
theorem getCachedPreview_only_live (db : List Cache.RenderedPreviewRow)
    (now : Nat) (key : String) (e : Cache.CacheEntry)
    (h : Cache.getCachedPreview key (.ok db) now = some e) :
    ∃ r ∈ db, r.cache_key = key ∧ now < r.expires_at ∧
      e = Cache.entryOfRow r := by
  unfold Cache.getCachedPreview at h
  dsimp only at h
  cases hh : (db.filter
      (fun r => r.cache_key == key && now < r.expires_at)).head? with
  | none => rw [hh] at h; simp at h
  | some r =>
      rw [hh] at h
      have hr := List.mem_filter.mp (head?_mem hh)
      obtain ⟨hmem, hcond⟩ := hr
      simp only [Bool.and_eq_true, beq_iff_eq, decide_eq_true_eq] at hcond
      simp only [Option.some.injEq] at h
      exact ⟨r, hmem, hcond.1, hcond.2, h.symm⟩

/-- C4 (witness): the theorem applied to a one-row store holding a live
entry. -/
theorem getCachedPreview_only_live_witness :
    Cache.getCachedPreview "hero-banner" (.ok [liveRow]) 50 =
        some (Cache.entryOfRow liveRow) ∧
      ∃ r ∈ [liveRow], r.cache_key = "hero-banner" ∧ 50 < r.expires_at ∧
        Cache.entryOfRow liveRow = Cache.entryOfRow r :=
  ⟨by decide, getCachedPreview_only_live [liveRow] 50 "hero-banner"
    (Cache.entryOfRow liveRow) (by decide)⟩

/-- C6: cache-backend failures are advisory — a failing read is a cache
miss, a failing write leaves the store unchanged without throwing, both
invalidations swallow the failure and report a count of 0, and a render
against a failing backend still completes uncached. -/
theorem cache_backend_failures_are_advisory (key slug pslug : String)
    (preset : Option String) (entry : Cache.CacheEntry) (ttl now : Nat)
    (opts : Pipeline.RenderOptions) (env : Pipeline.RenderEnv)
    (hdb : env.db = .error ()) :
    Cache.getCachedPreview key (.error ()) now = none ∧
      Cache.setCachedPreview key slug preset entry ttl (.error ()) now =
        .error () ∧
      Cache.invalidateSectionCache slug (.error ()) = (.error (), 0) ∧
      Cache.invalidatePresetCache pslug (.error ()) = (.error (), 0) ∧
      (Pipeline.renderSection opts env).1.cached = false := by
  refine ⟨rfl, rfl, rfl, rfl, ?_⟩
  unfold Pipeline.renderSection
  rw [hdb]
  cases hskip : opts.skipCache with
  | true =>
      simp only [hskip, if_true]
      cases hs : env.sections opts.sectionSlug <;> simp [hs]
  | false =>
      simp only [hskip, Bool.false_eq_true, if_false, Cache.getCachedPreview]
      cases hs : env.sections opts.sectionSlug <;> simp [hs]

/-- Membership form of the JS `in` test. -/
theorem jsMapHasKey_iff {α : Type} {m : List (String × α)} {k : String} :
    jsMapHasKey m k = true ↔ ∃ p ∈ m, p.1 = k := by
  simp [jsMapHasKey, List.any_eq_true]

/-- After `obj[k] = v` the key `k` is present. -/
theorem jsMapHasKey_set_self {α : Type} (m : List (String × α)) (k : String)
    (v : α) : jsMapHasKey (jsMapSet m k v) k = true := by
  unfold jsMapSet
  split
  · next h =>
      rw [jsMapHasKey_iff] at h ⊢
      obtain ⟨p, hp, hk⟩ := h
      refine ⟨(k, v), List.mem_map.mpr ⟨p, hp, ?_⟩, rfl⟩
      simp [hk]
  · rw [jsMapHasKey_iff]
    exact ⟨(k, v), by simp, rfl⟩

/-- `obj[k] = v` preserves every key already present. -/
theorem jsMapHasKey_set_mono {α : Type} (m : List (String × α))
    (k k' : String) (v : α) (h : jsMapHasKey m k' = true) :
    jsMapHasKey (jsMapSet m k v) k' = true := by
  unfold jsMapSet
  split
  · rw [jsMapHasKey_iff] at h ⊢
    obtain ⟨p, hp, hk⟩ := h
    by_cases hpk : p.1 = k
    · refine ⟨(k, v), List.mem_map.mpr ⟨p, hp, by simp [hpk]⟩, ?_⟩
      simp [← hpk, hk]
    · exact ⟨p, List.mem_map.mpr ⟨p, hp, by simp [hpk]⟩, hk⟩
  · rw [jsMapHasKey_iff] at h ⊢
    obtain ⟨p, hp, hk⟩ := h
    exact ⟨p, List.mem_append_left _ hp, hk⟩

/-- The default-merging loop preserves every key already present. -/
theorem mergeBlockDefaults_hasKey_mono (declared : List Mock.SectionSetting)
    (m : JsRecord) (k : String) (h : jsMapHasKey m k = true) :
    jsMapHasKey (Mock.mergeBlockDefaults m declared) k = true := by
  induction declared generalizing m with
  | nil => exact h
  | cons s rest ih =>
      unfold Mock.mergeBlockDefaults
      simp only [List.foldl_cons]
      apply ih
      split
      · exact h
      · exact jsMapHasKey_set_mono m s.id k _ h

/-- After the default-merging loop every declared setting id is
present. -/
theorem mergeBlockDefaults_hasKey_declared
    (declared : List Mock.SectionSetting) (m : JsRecord)
    (s : Mock.SectionSetting) (hs : s ∈ declared) :
    jsMapHasKey (Mock.mergeBlockDefaults m declared) s.id = true := by
  induction declared generalizing m with
  | nil => cases hs
  | cons t rest ih =>
      unfold Mock.mergeBlockDefaults
      simp only [List.foldl_cons]
      rcases List.mem_cons.mp hs with heq | hmem
      · subst heq
        apply mergeBlockDefaults_hasKey_mono
        split
        · next h => exact h
        · exact jsMapHasKey_set_self m s.id _
      · exact ih _ hmem

/-- The default-merging loop is the identity when every declared id is
already present. -/
theorem mergeBlockDefaults_noop (declared : List Mock.SectionSetting)
    (m : JsRecord) (h : ∀ s ∈ declared, jsMapHasKey m s.id = true) :
    Mock.mergeBlockDefaults m declared = m := by
  induction declared generalizing m with
  | nil => rfl
  | cons t rest ih =>
      unfold Mock.mergeBlockDefaults
      simp only [List.foldl_cons]
      rw [if_pos (h t (List.mem_cons_self t rest))]
      exact ih m (fun s hs => h s (List.mem_cons_of_mem t hs))

/-- The default-merging loop is idempotent. -/
theorem mergeBlockDefaults_idem (declared : List Mock.SectionSetting)
    (m : JsRecord) :
    Mock.mergeBlockDefaults (Mock.mergeBlockDefaults m declared) declared =
      Mock.mergeBlockDefaults m declared :=
  mergeBlockDefaults_noop declared _
    (fun s hs => mergeBlockDefaults_hasKey_declared declared m s hs)

/-- Reprocessing a preset block in its post-call state reproduces the
same block context and leaves the block unchanged: the in-place default
merge is stable. -/
theorem processPresetBlock_idem (blockTypes : List Mock.SectionBlock)
    (index : Nat) (block : Mock.PresetBlock) :
    Mock.processPresetBlock blockTypes index
        (Mock.processPresetBlock blockTypes index block).2 =
      Mock.processPresetBlock blockTypes index block := by
  obtain ⟨ty, settings⟩ := block
  cases settings with
  | none =>
      unfold Mock.processPresetBlock
      simp
  | some m =>
      unfold Mock.processPresetBlock
      simp only [Option.getD_some, Option.map_some]
      cases hbt : blockTypes.find? (fun bt => bt.type == ty) with
      | none => simp [hbt]
      | some bt =>
          cases hdecl : bt.settings with
          | none => simp [hbt, hdecl]
          | some decl => simp [hbt, hdecl, mergeBlockDefaults_idem]

/-- Reprocessing a list of preset blocks in their post-call state
reproduces the same contexts and changes nothing further. -/
theorem processPresetBlocks_idem (blockTypes : List Mock.SectionBlock)
    (index : Nat) (blocks : List Mock.PresetBlock) :
    Mock.processPresetBlocks blockTypes index
        (Mock.processPresetBlocks blockTypes index blocks).2 =
      Mock.processPresetBlocks blockTypes index blocks := by
  induction blocks generalizing index with
  | nil => rfl
  | cons b bs ih =>
      simp only [Mock.processPresetBlocks]
      rw [processPresetBlock_idem, ih]

/-- `generateMockBlocks` is idempotent on the preset state it returns:
running it again on the post-call presets yields the same block
contexts and the same presets. -/
theorem generateMockBlocks_idem (blockTypes : List Mock.SectionBlock)
    (presets : List Mock.SectionPreset) :
    Mock.generateMockBlocks blockTypes
        (Mock.generateMockBlocks blockTypes presets).2 =
      Mock.generateMockBlocks blockTypes presets := by
  cases presets with
  | nil => rfl
  | cons p rest =>
      obtain ⟨pname, pblocks, psettings⟩ := p
      cases pblocks with
      | none => rfl
      | some bs =>
          unfold Mock.generateMockBlocks
          simp only []
          rw [processPresetBlocks_idem]

/-- C2 (amended): `generateMockDataFromSchema` is deterministic — a
second call on the same schema and preset, in the state the first call
left behind, produces the identical render context and leaves the
schema unchanged — but the first call may mutate its input: it writes
missing per-setting defaults into the settings objects of the first
preset's blocks (see the counterexample). -/
theorem generateMockDataFromSchema_stable (s : Mock.SectionData)
    (preset : Option Mock.PresetInput) :
    Mock.generateMockDataFromSchema
        (Mock.generateMockDataFromSchema s preset).2 preset =
      Mock.generateMockDataFromSchema s preset := by
  unfold Mock.generateMockDataFromSchema
  simp only [generateMockBlocks_idem]

/-- C2 (counterexample): the generator is not side-effect-free — on a
schema whose first preset declares a block with an empty settings
object, the call inserts the block type's `text` default into that
object, so the post-call schema differs from the input. -/
theorem generateMockDataFromSchema_mutates :
    (Mock.generateMockDataFromSchema presetBlockSchema none).2 ≠
      presetBlockSchema := by
  intro h
  have h2 : (some [("text", JsonValue.str "Sample text")] : Option JsRecord) =
      some ([] : JsRecord) := by
    calc (some [("text", JsonValue.str "Sample text")] : Option JsRecord)
        = firstPresetBlockSettings
            (Mock.generateMockDataFromSchema presetBlockSchema none).2 := rfl
      _ = firstPresetBlockSettings presetBlockSchema := by rw [h]
      _ = some [] := rfl
  simp at h2

/-- C3: a cache entry is written only by an error-free, cache-enabled
render — after every render call, either the result has no errors and
`skipCache` was unset, or the cache store is exactly as before (no
entry was created, whether the render hit the cache, found no schema,
or threw). -/
theorem renderSection_writes_only_clean (opts : Pipeline.RenderOptions)
    (env : Pipeline.RenderEnv) :
    ((Pipeline.renderSection opts env).1.errors = [] ∧
        opts.skipCache = false) ∨
      (Pipeline.renderSection opts env).2 = env.db := by
  unfold Pipeline.renderSection
  cases hskip : opts.skipCache with
  | true =>
      simp only [hskip, if_true]
      cases hs : env.sections opts.sectionSlug with
      | none => right; rfl
      | some sd => right; simp [hs]
  | false =>
      simp only [hskip, Bool.false_eq_true, if_false]
      cases hhit : Cache.getCachedPreview
          (Cache.generateCacheKey opts.sectionSlug opts.presetSlug
            (opts.customSettings.map Cache.hashSettings)) env.db env.now with
      | some c => left; simp [hhit]
      | none =>
          cases hs : env.sections opts.sectionSlug with
          | none => right; simp [hhit, hs]
          | some sd =>
              simp only [hhit, hs]
              cases hr : env.parseAndRender
                  (match env.templates opts.sectionSlug with
                    | some t => t
                    | none => Engine.generateTemplateFromSchema sd)
                  (match opts.customSettings with
                    | some cs =>
                        { (Mock.generateMockDataFromSchema sd
                            (match opts.presetSlug with
                              | some p => env.presets p
                              | none => none)).1 with
                          «section» :=
                            { (Mock.generateMockDataFromSchema sd
                                (match opts.presetSlug with
                                  | some p => env.presets p
                                  | none => none)).1.«section» with
                              settings := objectAssign
                                (Mock.generateMockDataFromSchema sd
                                  (match opts.presetSlug with
                                    | some p => env.presets p
                                    | none => none)).1.«section».settings cs } }
                    | none =>
                        (Mock.generateMockDataFromSchema sd
                          (match opts.presetSlug with
                            | some p => env.presets p
                            | none => none)).1) with
              | ok h => left; simp [hr]
              | error msg => right; simp [hr]

/-- C5: when the template engine throws during rendering, the pipeline
catches it — the result carries exactly the thrown message in `errors`,
its HTML is the inline error marker, `cached` is `false`, the cache is
untouched, and (the embedding being a total function) nothing escapes
the single-render boundary. -/
theorem renderSection_catches_render_errors (opts : Pipeline.RenderOptions)
    (env : Pipeline.RenderEnv) (sd : Mock.SectionData) (msg : String)
    (hmiss : opts.skipCache = true ∨
      Cache.getCachedPreview
        (Cache.generateCacheKey opts.sectionSlug opts.presetSlug
          (opts.customSettings.map Cache.hashSettings)) env.db env.now = none)
    (hsec : env.sections opts.sectionSlug = some sd)
    (hrender : ∀ t c, env.parseAndRender t c = .error msg) :
    Pipeline.renderSection opts env =
      ({ html := "<div class=\"error\">Render error: " ++ msg ++ "</div>"
         css := Engine.generatePreviewCSS sd
         errors := [msg]
         renderTimeMs := env.elapsedRender
         cached := false }, env.db) := by
  unfold Pipeline.renderSection
  rcases hmiss with hskip | hget
  · simp [hskip, hsec, hrender]
  · cases hskip : opts.skipCache with
    | true => simp [hsec, hrender]
    | false => simp [hget, hsec, hrender]

/-- C5 (witness): rendering a known section against an engine that
always throws `boom`, with the cache skipped. -/
theorem renderSection_catches_render_errors_witness :
    throwingEnv.sections "hero-banner" = some plainSection ∧
      Pipeline.renderSection
          { sectionSlug := "hero-banner", presetSlug := none,
            customSettings := none, skipCache := true } throwingEnv =
        ({ html := "<div class=\"error\">Render error: boom</div>"
           css := Engine.generatePreviewCSS plainSection
           errors := ["boom"]
           renderTimeMs := throwingEnv.elapsedRender
           cached := false }, throwingEnv.db) :=
  ⟨rfl,
    renderSection_catches_render_errors
      { sectionSlug := "hero-banner", presetSlug := none,
        customSettings := none, skipCache := true }
      throwingEnv plainSection "boom" (Or.inl rfl) rfl (fun _t _c => rfl)⟩

/-- Setting an absent key appends the entry. -/
theorem jsMapSet_absent {α : Type} (m : List (String × α)) (k : String)
    (v : α) (h : jsMapHasKey m k = false) :
    jsMapSet m k v = m ++ [(k, v)] := by
  unfold jsMapSet
  rw [if_neg]
  simp [h]

/-- Folding `jsMapSet` over fresh, pairwise-distinct keys appends one
entry per key, in order. -/
theorem foldl_jsMapSet_append {α : Type} (f : String → α) :
    ∀ (l : List String) (acc : List (String × α)), l.Nodup →
      (∀ s ∈ l, jsMapHasKey acc s = false) →
      l.foldl (fun m s => jsMapSet m s (f s)) acc =
        acc ++ l.map (fun s => (s, f s)) := by
  intro l
  induction l with
  | nil => intro acc _ _; simp
  | cons x xs ih =>
      intro acc hnd hfresh
      have hx : jsMapHasKey acc x = false :=
        hfresh x (List.mem_cons_self x xs)
      have hnd' := (List.nodup_cons.mp hnd)
      simp only [List.foldl_cons, List.map_cons]
      rw [jsMapSet_absent acc x (f x) hx]
      rw [ih (acc ++ [(x, f x)]) hnd'.2 ?_]
      · simp
      · intro s hs
        have hsacc : jsMapHasKey acc s = false := hfresh s (List.mem_cons_of_mem x hs)
        have hxs : x ≠ s := fun he => hnd'.1 (he ▸ hs)
        simp [jsMapHasKey, List.any_append] at hsacc ⊢
        exact ⟨hsacc, fun he => hxs he⟩

/-- Looking a key up in its graph map yields its image. -/
theorem lookup_graph {α : Type} (f : String → α) :
    ∀ (l : List String) (s : String), s ∈ l →
      (l.map (fun x => (x, f x))).lookup s = some (f s) := by
  intro l
  induction l with
  | nil => intro s hs; cases hs
  | cons x xs ih =>
      intro s hs
      by_cases hsx : s = x
      · subst hsx
        simp [List.lookup]
      · rcases List.mem_cons.mp hs with heq | hmem
        · exact absurd heq hsx
        · simp only [List.map_cons, List.lookup,
            show (s == x) = false by simp [hsx]]
          exact ih s hmem

/-- C7: for a batch of at most 20 distinct slugs, the batch render maps
each slug, in order, to exactly the result of its own independent
single render — so the output is keyed by slug with one result per
slug, one slug's failure cannot affect another's entry, and the (total)
batch function raises nothing. -/
theorem renderSectionsBatch_keys_and_results (slugs : List String)
    (presetSlug : Option String) (env : Pipeline.RenderEnv)
    (hnd : slugs.Nodup) (hlen : slugs.length ≤ 20) :
    (Pipeline.renderSectionsBatch slugs presetSlug env).map Prod.fst =
        slugs ∧
      ∀ slug ∈ slugs,
        (Pipeline.renderSectionsBatch slugs presetSlug env).lookup slug =
          some (Pipeline.renderSection
            { sectionSlug := slug, presetSlug := presetSlug,
              customSettings := none, skipCache := false } env).1 := by
  have hbatch : Pipeline.renderSectionsBatch slugs presetSlug env =
      slugs.map (fun slug => (slug,
        (Pipeline.renderSection
          { sectionSlug := slug, presetSlug := presetSlug,
            customSettings := none, skipCache := false } env).1)) := by
    unfold Pipeline.renderSectionsBatch
    rw [List.take_of_length_le hlen]
    rw [foldl_jsMapSet_append
      (fun slug => (Pipeline.renderSection
        { sectionSlug := slug, presetSlug := presetSlug,
          customSettings := none, skipCache := false } env).1)
      slugs [] hnd (fun s _ => rfl)]
    simp
  refine ⟨?_, ?_⟩
  · rw [hbatch]
    simp [Function.comp_def]
  · intro slug hs
    rw [hbatch]
    exact lookup_graph _ slugs slug hs

/-- C7 (witness): the five-slug batch scenario — `c`'s schema is
missing in `batchEnv`, the other four exist — instantiating the
theorem. -/
theorem renderSectionsBatch_keys_and_results_witness :
    (["a", "b", "c", "d", "e"] : List String).Nodup ∧
      (["a", "b", "c", "d", "e"] : List String).length ≤ 20 ∧
      (Pipeline.renderSectionsBatch ["a", "b", "c", "d", "e"] none
          batchEnv).map Prod.fst = ["a", "b", "c", "d", "e"] ∧
      (Pipeline.renderSectionsBatch ["a", "b", "c", "d", "e"] none
          batchEnv).lookup "c" =
        some (Pipeline.renderSection
          { sectionSlug := "c", presetSlug := none,
            customSettings := none, skipCache := false } batchEnv).1 ∧
      (Pipeline.renderSectionsBatch ["a", "b", "c", "d", "e"] none
          batchEnv).lookup "a" =
        some (Pipeline.renderSection
          { sectionSlug := "a", presetSlug := none,
            customSettings := none, skipCache := false } batchEnv).1 :=
  ⟨by decide, by decide,
    (renderSectionsBatch_keys_and_results ["a", "b", "c", "d", "e"] none
      batchEnv (by decide) (by decide)).1,
    (renderSectionsBatch_keys_and_results ["a", "b", "c", "d", "e"] none
      batchEnv (by decide) (by decide)).2 "c" (by decide),
    (renderSectionsBatch_keys_and_results ["a", "b", "c", "d", "e"] none
      batchEnv (by decide) (by decide)).2 "a" (by decide)⟩

/-- C6 (witness): the theorem applied to the failing-backend
environment. -/
theorem cache_backend_failures_are_advisory_witness :
    failingDbEnv.db = .error () ∧
      (Cache.getCachedPreview "k" (.error ()) 0 = none ∧
        Cache.setCachedPreview "k" "s" none
          { html := "h", css := none, renderTimeMs := 1 } 60 (.error ()) 0 =
          .error () ∧
        Cache.invalidateSectionCache "s" (.error ()) = (.error (), 0) ∧
        Cache.invalidatePresetCache "p" (.error ()) = (.error (), 0) ∧
        (Pipeline.renderSection
          { sectionSlug := "hero-banner", presetSlug := none,
            customSettings := none, skipCache := false }
          failingDbEnv).1.cached = false) :=
  ⟨rfl, cache_backend_failures_are_advisory "k" "s" "p" none
    { html := "h", css := none, renderTimeMs := 1 } 60 0
    { sectionSlug := "hero-banner", presetSlug := none,
      customSettings := none, skipCache := false }
    failingDbEnv rfl⟩
